import Mathlib

set_option maxHeartbeats 1000000

/-!
Verification development for the IoT black-box two-wheeler accident
detection backend: a shallow embedding of the message ingestion and
event-classification pipeline (severity classifier, message validators,
MQTT handlers, transactional persistence, event listing queries and the
MQTT reconnect state machine), together with theorems checking the
behavioural properties stated for that pipeline.

Numbers flowing through the pipeline are embedded as rationals, JS `Date`
values as integer epoch milliseconds, and fallible operations as
`Except String`.
-/

namespace BlackBox

-- ============================================================
-- SEVERITY CLASSIFIER (src/services/event.service.ts)
-- ============================================================

/-- Severity tiers of a crash event, mirroring the `EventSeverity` enum
(`low`, `medium`, `high`, `critical`) of the shared database types. -/
inductive EventSeverity where
  | low
  | medium
  | high
  | critical
deriving DecidableEq, Repr

/-- JS guarded comparison `(v && v > thr)` on an optional number: an
absent value is falsy, the number `0` is falsy, otherwise the comparison
decides. -/
def jsGtThreshold (v : Option ℚ) (thr : ℚ) : Bool :=
  match v with
  | none => false
  | some x => if x = 0 then false else decide (x > thr)

/-- Embedding of `classifyCrashSeverity(impactForce?, tiltAngle?)`: the
cascade of guarded threshold checks from `event.service.ts`. -/
def classifyCrashSeverity (impactForce tiltAngle : Option ℚ) : EventSeverity :=
  if jsGtThreshold impactForce 8 || jsGtThreshold tiltAngle 70 then .critical
  else if jsGtThreshold impactForce 5 || jsGtThreshold tiltAngle 45 then .high
  else if jsGtThreshold impactForce 3 || jsGtThreshold tiltAngle 30 then .medium
  else .low

/-- Plain strict comparison on an optional number: an absent input cannot
trigger its threshold and no default is substituted. Used by the
spec-worded cascade below. -/
def optGtThreshold (v : Option ℚ) (thr : ℚ) : Bool :=
  match v with
  | none => false
  | some x => decide (x > thr)

/-- Modelled from the spec words for `classifySeverity`: CRITICAL if
impactForce exceeds 8 or tiltAngle exceeds 70, else HIGH at 5 or 45, else
MEDIUM at 3 or 30, else LOW, with strict thresholds and absent inputs
triggering nothing. Stated side by side with `classifyCrashSeverity` for
the refinement comparison. -/
def specSeverityCascade (impactForce tiltAngle : Option ℚ) : EventSeverity :=
  if optGtThreshold impactForce 8 || optGtThreshold tiltAngle 70 then .critical
  else if optGtThreshold impactForce 5 || optGtThreshold tiltAngle 45 then .high
  else if optGtThreshold impactForce 3 || optGtThreshold tiltAngle 30 then .medium
  else .low

/-- Generic three-trigger cascade used to factor the monotonicity proof. -/
def severityOfTriggers (c h m : Bool) : EventSeverity :=
  if c then .critical else if h then .high else if m then .medium else .low

/-- Numeric rank of a severity tier: LOW is 0, CRITICAL is 3. -/
def severityRank : EventSeverity → Nat
  | .low => 0
  | .medium => 1
  | .high => 2
  | .critical => 3

/-- Lower-case wire string of a severity tier, as stored in the
`severity` column. -/
def severityToString : EventSeverity → String
  | .low => "low"
  | .medium => "medium"
  | .high => "high"
  | .critical => "critical"

/-- JS `Math.round`: rounds half toward positive infinity. -/
def jsRound (q : ℚ) : ℤ := ⌊q + 1 / 2⌋

/-- Embedding of `calculateInjuryProbability(impactForce?, tiltAngle?,
speed?)`: three JS truthiness-guarded capped contributions, rounded and
capped at 100. -/
def calculateInjuryProbability (impactForce tiltAngle speed : Option ℚ) : ℤ :=
  min
    (jsRound
      ((match impactForce with
        | none => (0 : ℚ)
        | some x => if x = 0 then 0 else min (x / 10 * 40) 40) +
       (match tiltAngle with
        | none => (0 : ℚ)
        | some x => if x = 0 then 0 else min (x / 90 * 30) 30) +
       (match speed with
        | none => (0 : ℚ)
        | some x => if x = 0 then 0 else min (x / 100 * 30) 30)))
    100

/-- Modelled from the spec words for one weighted term of
`injuryProbability`: an absent input contributes 0, a present input
contributes `min (x / d * c) cap`. -/
def specInjuryTerm (v : Option ℚ) (d c cap : ℚ) : ℚ :=
  match v with
  | none => 0
  | some x => min (x / d * c) cap

/-- Modelled from the spec words for `injuryProbability`: the weighted
capped sum, rounded to nearest and hard-capped at 100. Stated side by
side with `calculateInjuryProbability` for the refinement comparison. -/
def specInjuryFormula (impactForce tiltAngle speed : Option ℚ) : ℤ :=
  min
    (jsRound
      (specInjuryTerm impactForce 10 40 40 +
       specInjuryTerm tiltAngle 90 30 30 +
       specInjuryTerm speed 100 30 30))
    100

-- ============================================================
-- DATA MODEL (shared database types and schema)
-- ============================================================

/-- JS `Date` values, embedded as epoch milliseconds. -/
abbrev Timestamp := Int

/-- A complete 3-axis vector, as stored for forensic sub-objects. -/
structure Vector3D where
  x : ℚ
  y : ℚ
  z : ℚ
deriving DecidableEq, Repr

/-- A validated position: latitude, longitude and optional altitude. -/
structure Position where
  lat : ℚ
  lon : ℚ
  altitude : Option ℚ
deriving DecidableEq, Repr

/-- A row of the `devices` table (the fields the ingestion core touches).
The status column holds one of the strings `online`, `offline`,
`error`. -/
structure Device where
  device_id : String
  user_id : String
  device_name : Option String
  status : String
  last_seen : Option Timestamp
  battery_level : Option ℚ
deriving DecidableEq, Repr

/-- A row of the `crash_events` table (the fields the ingestion core and
the listing query touch). The generated unique id is a natural number. -/
structure CrashEventRow where
  id : Nat
  device_id : String
  user_id : String
  event_timestamp : Timestamp
  location_lat : ℚ
  location_lon : ℚ
  altitude : Option ℚ
  impact_force : Option ℚ
  impact_direction : Option String
  tilt_angle : Option ℚ
  pre_event_speed_avg : Option ℚ
  pre_event_heading : Option ℚ
  pre_event_accel : Option Vector3D
  pre_event_gyro : Option Vector3D
  post_event_accel : Option Vector3D
  post_event_gyro : Option Vector3D
  post_event_position : Option Position
  severity : String
  injury_probability : Option ℤ
  is_reviewed : Bool
deriving DecidableEq, Repr

/-- A row of the `panic_events` table. -/
structure PanicEventRow where
  id : Nat
  device_id : String
  user_id : String
  event_timestamp : Timestamp
  location_lat : ℚ
  location_lon : ℚ
  device_speed : Option ℚ
  device_heading : Option ℚ
  triggered_by : String
deriving DecidableEq, Repr

/-- A row of the `emergency_contacts` table. -/
structure EmergencyContact where
  user_id : String
  contact_name : String
  phone_number : String
  email : Option String
  whatsapp_number : Option String
  is_primary : Bool
  is_active : Bool
  created_at : Timestamp
deriving DecidableEq, Repr

/-- The database state the ingestion pipeline reads and writes. -/
structure Database where
  devices : List Device
  crashEvents : List CrashEventRow
  panicEvents : List PanicEventRow
  contacts : List EmergencyContact
deriving DecidableEq, Repr

-- ============================================================
-- PERSISTENCE LAYER (config/database.ts and services/database.service.ts)
-- ============================================================

/-- Embedding of `getDevice(deviceId)`: `SELECT * FROM devices WHERE
device_id = $1`, first row or null. -/
def getDevice (db : Database) (deviceId : String) : Option Device :=
  db.devices.find? (fun d => d.device_id == deviceId)

/-- Embedding of the `UPDATE devices SET status = $1, last_seen = $2 WHERE
device_id = $3` statement used by `updateDeviceStatus` and by the crash
transaction. -/
def updateDeviceStatusRows (devices : List Device) (deviceId status : String)
    (lastSeen : Timestamp) : List Device :=
  devices.map (fun d =>
    if d.device_id == deviceId then { d with status := status, last_seen := some lastSeen } else d)

/-- Embedding of the `UPDATE devices SET last_seen = $1 WHERE device_id =
$2` statement used by the panic transaction. -/
def updateDeviceLastSeenRows (devices : List Device) (deviceId : String)
    (lastSeen : Timestamp) : List Device :=
  devices.map (fun d =>
    if d.device_id == deviceId then { d with last_seen := some lastSeen } else d)

/-- Embedding of the `UPDATE devices SET battery_level = $1 WHERE
device_id = $2` statement used by `updateDeviceBattery`. -/
def updateDeviceBatteryRows (devices : List Device) (deviceId : String)
    (battery : ℚ) : List Device :=
  devices.map (fun d =>
    if d.device_id == deviceId then { d with battery_level := some battery } else d)

/-- Embedding of `withTransaction(callback)` from `config/database.ts`:
runs the callback against the current state, commits the new state when
the callback returns normally, and on any exception rolls the state back
to the original and rethrows. -/
def withTransaction {α : Type} (callback : Database → Except String (α × Database))
    (db : Database) : Except String α × Database :=
  match callback db with
  | .ok (a, db2) => (.ok a, db2)
  | .error e => (.error e, db)

/-- Fault injection for the queries issued inside an event transaction: a
flagged query throws, standing for a deadlock, constraint violation or
connection failure of that statement. -/
structure QueryFaults where
  failInsert : Bool
  failDeviceUpdate : Bool
deriving DecidableEq, Repr

/-- The `CrashEventCreateInput` record handed to `saveCrashEvent`. -/
structure CrashEventCreateInput where
  device_id : String
  user_id : String
  event_timestamp : Timestamp
  location_lat : ℚ
  location_lon : ℚ
  altitude : Option ℚ
  impact_force : Option ℚ
  impact_direction : Option String
  tilt_angle : Option ℚ
  pre_event_speed_avg : Option ℚ
  pre_event_heading : Option ℚ
  pre_event_accel : Option Vector3D
  pre_event_gyro : Option Vector3D
  post_event_accel : Option Vector3D
  post_event_gyro : Option Vector3D
  post_event_position : Option Position
  severity : Option String
  injury_probability : Option ℤ
deriving DecidableEq, Repr

/-- The crash row inserted by the `INSERT INTO crash_events ...` statement
of `saveCrashEvent`; the generated id is the insertion index and
`severity` falls back to `medium` when absent, as in
`eventData.severity || 'medium'`. -/
def mkCrashEventRow (db : Database) (eventData : CrashEventCreateInput) : CrashEventRow :=
  { id := db.crashEvents.length
    device_id := eventData.device_id
    user_id := eventData.user_id
    event_timestamp := eventData.event_timestamp
    location_lat := eventData.location_lat
    location_lon := eventData.location_lon
    altitude := eventData.altitude
    impact_force := eventData.impact_force
    impact_direction := eventData.impact_direction
    tilt_angle := eventData.tilt_angle
    pre_event_speed_avg := eventData.pre_event_speed_avg
    pre_event_heading := eventData.pre_event_heading
    pre_event_accel := eventData.pre_event_accel
    pre_event_gyro := eventData.pre_event_gyro
    post_event_accel := eventData.post_event_accel
    post_event_gyro := eventData.post_event_gyro
    post_event_position := eventData.post_event_position
    severity := eventData.severity.getD "medium"
    injury_probability := eventData.injury_probability
    is_reviewed := false }

/-- Embedding of `saveCrashEvent(eventData)`: inside one `withTransaction`
scope, insert the crash row, then set the device status to `error` with
the current time as last-seen. `now` is the `new Date()` taken by the
device update; `faults` injects failures of the two statements. -/
def saveCrashEvent (faults : QueryFaults) (now : Timestamp)
    (eventData : CrashEventCreateInput) (db : Database) :
    Except String CrashEventRow × Database :=
  withTransaction (fun db0 =>
    if faults.failInsert then .error "crash insert failed"
    else
      let row := mkCrashEventRow db0 eventData
      let db1 := { db0 with crashEvents := db0.crashEvents ++ [row] }
      if faults.failDeviceUpdate then .error "device update failed"
      else
        let db2 := { db1 with
          devices := updateDeviceStatusRows db1.devices eventData.device_id "error" now }
        .ok (row, db2)) db

/-- The `PanicEventCreateInput` record handed to `savePanicEvent`. -/
structure PanicEventCreateInput where
  device_id : String
  user_id : String
  event_timestamp : Timestamp
  location_lat : ℚ
  location_lon : ℚ
  device_speed : Option ℚ
  device_heading : Option ℚ
  triggered_by : String
deriving DecidableEq, Repr

/-- Embedding of `savePanicEvent(eventData)`: inside one `withTransaction`
scope, insert the panic row, then update the device last-seen (status
unchanged). -/
def savePanicEvent (faults : QueryFaults) (now : Timestamp)
    (eventData : PanicEventCreateInput) (db : Database) :
    Except String PanicEventRow × Database :=
  withTransaction (fun db0 =>
    if faults.failInsert then .error "panic insert failed"
    else
      let row : PanicEventRow :=
        { id := db0.panicEvents.length
          device_id := eventData.device_id
          user_id := eventData.user_id
          event_timestamp := eventData.event_timestamp
          location_lat := eventData.location_lat
          location_lon := eventData.location_lon
          device_speed := eventData.device_speed
          device_heading := eventData.device_heading
          triggered_by := eventData.triggered_by }
      let db1 := { db0 with panicEvents := db0.panicEvents ++ [row] }
      if faults.failDeviceUpdate then .error "device update failed"
      else
        let db2 := { db1 with
          devices := updateDeviceLastSeenRows db1.devices eventData.device_id now }
        .ok (row, db2)) db

/-- Ordering used by `getEmergencyContacts`: `ORDER BY is_primary DESC,
created_at ASC`. -/
def contactBefore (a b : EmergencyContact) : Prop :=
  a.is_primary = true ∧ b.is_primary = false ∨
    (a.is_primary = b.is_primary ∧ a.created_at ≤ b.created_at)

instance : DecidableRel contactBefore := fun a b => by
  unfold contactBefore; infer_instance

/-- Embedding of `getEmergencyContacts(userId)`: active contacts of the
user, primary first, then by creation time. -/
def getEmergencyContacts (db : Database) (userId : String) : List EmergencyContact :=
  (db.contacts.filter (fun c => c.user_id == userId && c.is_active)).insertionSort contactBefore

-- ============================================================
-- MESSAGE SHAPES AND VALIDATORS (src/models/schemas.ts)
-- ============================================================

/-- A raw 3-axis vector as it arrives in a JSON payload: every component
may be missing. -/
structure RawVector where
  x : Option ℚ
  y : Option ℚ
  z : Option ℚ
deriving DecidableEq, Repr

/-- A raw position object as it arrives in a JSON payload. -/
structure RawPosition where
  lat : Option ℚ
  lon : Option ℚ
  altitude : Option ℚ
deriving DecidableEq, Repr

/-- The raw `preEventData` sub-object of a crash message. -/
structure RawPreEventData where
  speedAvg : Option ℚ
  heading : Option ℚ
  accel : Option RawVector
  gyro : Option RawVector
deriving DecidableEq, Repr

/-- The raw `postEventData` sub-object of a crash message. -/
structure RawPostEventData where
  accel : Option RawVector
  gyro : Option RawVector
  position : Option RawPosition
deriving DecidableEq, Repr

/-- An inbound MQTT payload after `JSON.parse`: the superset of the fields
of the three message classes, every field possibly missing. The `topic`
field is attached by the transport client during enrichment. -/
structure RawMessage where
  deviceId : Option String
  timestamp : Option Timestamp
  location : Option RawPosition
  speed : Option ℚ
  heading : Option ℚ
  battery_level : Option ℚ
  accelerometer : Option RawVector
  gyroscope : Option RawVector
  impactForce : Option ℚ
  impactDirection : Option String
  tiltAngle : Option ℚ
  preEventData : Option RawPreEventData
  postEventData : Option RawPostEventData
  triggeredBy : Option String
  topic : Option String
deriving DecidableEq, Repr

/-- A raw message with every field absent, for building test inputs. -/
def RawMessage.empty : RawMessage :=
  { deviceId := none, timestamp := none, location := none, speed := none
    heading := none, battery_level := none, accelerometer := none
    gyroscope := none, impactForce := none, impactDirection := none
    tiltAngle := none, preEventData := none, postEventData := none
    triggeredBy := none, topic := none }

/-- Output of `telemetryMessageSchema.parse`. -/
structure TelemetryMessage where
  deviceId : String
  timestamp : Timestamp
  location : Position
  speed : ℚ
  heading : ℚ
  battery_level : Option ℚ
  accelerometer : Option Vector3D
  gyroscope : Option Vector3D
deriving DecidableEq, Repr

/-- Output of the `preEventData` branch of `crashEventMessageSchema`. -/
structure CrashPreEventData where
  speedAvg : ℚ
  heading : ℚ
  accel : Vector3D
  gyro : Vector3D
deriving DecidableEq, Repr

/-- Output of the `postEventData` branch of `crashEventMessageSchema`. -/
structure CrashPostEventData where
  accel : Vector3D
  gyro : Vector3D
  position : Position
deriving DecidableEq, Repr

/-- Output of `crashEventMessageSchema.parse`. -/
structure CrashEventMessage where
  deviceId : String
  timestamp : Timestamp
  location : Position
  impactForce : ℚ
  impactDirection : String
  tiltAngle : ℚ
  preEventData : CrashPreEventData
  postEventData : CrashPostEventData
deriving DecidableEq, Repr

/-- Output of `panicEventMessageSchema.parse`. -/
structure PanicEventMessage where
  deviceId : String
  timestamp : Timestamp
  location_lat : ℚ
  location_lon : ℚ
  speed : Option ℚ
  heading : Option ℚ
  triggeredBy : String
deriving DecidableEq, Repr

/-- Validator for the shared `vector3DSchema`: all three components must
be present numbers. -/
def parseVector3D (field : String) (rv : RawVector) : Except String Vector3D :=
  match rv.x with
  | none => .error (field ++ ".x: required")
  | some x =>
  match rv.y with
  | none => .error (field ++ ".y: required")
  | some y =>
  match rv.z with
  | none => .error (field ++ ".z: required")
  | some z => .ok { x := x, y := y, z := z }

/-- Validator for an optional vector field: absent passes through, a
present vector must be complete. -/
def parseOptionalVector (field : String) (rv : Option RawVector) :
    Except String (Option Vector3D) :=
  match rv with
  | none => .ok none
  | some v =>
    match parseVector3D field v with
    | .error e => .error e
    | .ok w => .ok (some w)

/-- Validator for the shared `positionSchema`: latitude in [-90, 90],
longitude in [-180, 180], altitude optional. -/
def parsePosition (field : String) (rp : RawPosition) : Except String Position :=
  match rp.lat with
  | none => .error (field ++ ".lat: required")
  | some lat =>
  if lat < -90 ∨ 90 < lat then .error (field ++ ".lat: out of range")
  else
  match rp.lon with
  | none => .error (field ++ ".lon: required")
  | some lon =>
  if lon < -180 ∨ 180 < lon then .error (field ++ ".lon: out of range")
  else .ok { lat := lat, lon := lon, altitude := rp.altitude }

/-- Validator for the `preEventData` sub-object: complete speed average,
heading in [0, 360], complete accel and gyro vectors. -/
def parsePreEventData (rp : RawPreEventData) : Except String CrashPreEventData :=
  match rp.speedAvg with
  | none => .error "preEventData.speedAvg: required"
  | some speedAvg =>
  if speedAvg < 0 then .error "preEventData.speedAvg: out of range"
  else
  match rp.heading with
  | none => .error "preEventData.heading: required"
  | some heading =>
  if heading < 0 ∨ 360 < heading then .error "preEventData.heading: out of range"
  else
  match rp.accel with
  | none => .error "preEventData.accel: required"
  | some raccel =>
  match parseVector3D "preEventData.accel" raccel with
  | .error e => .error e
  | .ok accel =>
  match rp.gyro with
  | none => .error "preEventData.gyro: required"
  | some rgyro =>
  match parseVector3D "preEventData.gyro" rgyro with
  | .error e => .error e
  | .ok gyro => .ok { speedAvg := speedAvg, heading := heading, accel := accel, gyro := gyro }

/-- Validator for the `postEventData` sub-object: complete accel and gyro
vectors and a valid resulting position. -/
def parsePostEventData (rp : RawPostEventData) : Except String CrashPostEventData :=
  match rp.accel with
  | none => .error "postEventData.accel: required"
  | some raccel =>
  match parseVector3D "postEventData.accel" raccel with
  | .error e => .error e
  | .ok accel =>
  match rp.gyro with
  | none => .error "postEventData.gyro: required"
  | some rgyro =>
  match parseVector3D "postEventData.gyro" rgyro with
  | .error e => .error e
  | .ok gyro =>
  match rp.position with
  | none => .error "postEventData.position: required"
  | some rpos =>
  match parsePosition "postEventData.position" rpos with
  | .error e => .error e
  | .ok pos => .ok { accel := accel, gyro := gyro, position := pos }

/-- Validator for an optional numeric field with a range bound: absent
passes through, a present value must lie in [lo, hi]. -/
def parseOptionalRange (field : String) (lo hi : ℚ) (v : Option ℚ) :
    Except String (Option ℚ) :=
  match v with
  | none => .ok none
  | some x => if x < lo ∨ hi < x then .error (field ++ ": out of range") else .ok (some x)

/-- Validator for an optional numeric field with only a lower bound. -/
def parseOptionalMin (field : String) (lo : ℚ) (v : Option ℚ) :
    Except String (Option ℚ) :=
  match v with
  | none => .ok none
  | some x => if x < lo then .error (field ++ ": out of range") else .ok (some x)

/-- Embedding of `telemetryMessageSchema.parse`: device id, timestamp,
valid location, non-negative speed, heading in [0, 360], optional battery
in [0, 100], optional complete accelerometer and gyroscope vectors. A
failure is the thrown ZodError with the failing field path. -/
def telemetryMessageSchema (m : RawMessage) : Except String TelemetryMessage :=
  match m.deviceId with
  | none => .error "deviceId: required"
  | some deviceId =>
  match m.timestamp with
  | none => .error "timestamp: required"
  | some timestamp =>
  match m.location with
  | none => .error "location: required"
  | some rloc =>
  match parsePosition "location" rloc with
  | .error e => .error e
  | .ok loc =>
  match m.speed with
  | none => .error "speed: required"
  | some speed =>
  if speed < 0 then .error "speed: out of range"
  else
  match m.heading with
  | none => .error "heading: required"
  | some heading =>
  if heading < 0 ∨ 360 < heading then .error "heading: out of range"
  else
  match parseOptionalRange "battery_level" 0 100 m.battery_level with
  | .error e => .error e
  | .ok battery =>
  match parseOptionalVector "accelerometer" m.accelerometer with
  | .error e => .error e
  | .ok accel =>
  match parseOptionalVector "gyroscope" m.gyroscope with
  | .error e => .error e
  | .ok gyro =>
    .ok { deviceId := deviceId, timestamp := timestamp, location := loc, speed := speed
          heading := heading, battery_level := battery, accelerometer := accel
          gyroscope := gyro }

/-- Embedding of `crashEventMessageSchema.parse`: device id, timestamp,
valid location, non-negative impact force, impact direction, tilt angle
in [0, 180], and complete pre-event and post-event sub-objects. -/
def crashEventMessageSchema (m : RawMessage) : Except String CrashEventMessage :=
  match m.deviceId with
  | none => .error "deviceId: required"
  | some deviceId =>
  match m.timestamp with
  | none => .error "timestamp: required"
  | some timestamp =>
  match m.location with
  | none => .error "location: required"
  | some rloc =>
  match parsePosition "location" rloc with
  | .error e => .error e
  | .ok loc =>
  match m.impactForce with
  | none => .error "impactForce: required"
  | some impactForce =>
  if impactForce < 0 then .error "impactForce: out of range"
  else
  match m.impactDirection with
  | none => .error "impactDirection: required"
  | some impactDirection =>
  match m.tiltAngle with
  | none => .error "tiltAngle: required"
  | some tiltAngle =>
  if tiltAngle < 0 ∨ 180 < tiltAngle then .error "tiltAngle: out of range"
  else
  match m.preEventData with
  | none => .error "preEventData: required"
  | some rpre =>
  match parsePreEventData rpre with
  | .error e => .error e
  | .ok pre =>
  match m.postEventData with
  | none => .error "postEventData: required"
  | some rpost =>
  match parsePostEventData rpost with
  | .error e => .error e
  | .ok post =>
    .ok { deviceId := deviceId, timestamp := timestamp, location := loc
          impactForce := impactForce, impactDirection := impactDirection
          tiltAngle := tiltAngle, preEventData := pre, postEventData := post }

/-- Embedding of `panicEventMessageSchema.parse`: device id, timestamp,
valid location, optional non-negative speed, optional heading in
[0, 360], and a trigger source of exactly `manual` or `auto`. -/
def panicEventMessageSchema (m : RawMessage) : Except String PanicEventMessage :=
  match m.deviceId with
  | none => .error "deviceId: required"
  | some deviceId =>
  match m.timestamp with
  | none => .error "timestamp: required"
  | some timestamp =>
  match m.location with
  | none => .error "location: required"
  | some rloc =>
  match rloc.lat with
  | none => .error "location.lat: required"
  | some lat =>
  if lat < -90 ∨ 90 < lat then .error "location.lat: out of range"
  else
  match rloc.lon with
  | none => .error "location.lon: required"
  | some lon =>
  if lon < -180 ∨ 180 < lon then .error "location.lon: out of range"
  else
  match parseOptionalMin "speed" 0 m.speed with
  | .error e => .error e
  | .ok speed =>
  match parseOptionalRange "heading" 0 360 m.heading with
  | .error e => .error e
  | .ok heading =>
  match m.triggeredBy with
  | none => .error "triggeredBy: required"
  | some tb =>
    if tb = "manual" ∨ tb = "auto" then
      .ok { deviceId := deviceId, timestamp := timestamp, location_lat := lat
            location_lon := lon, speed := speed, heading := heading, triggeredBy := tb }
    else .error "triggeredBy: invalid enum value"

-- ============================================================
-- EVENT PROCESSOR (src/services/event.service.ts)
-- ============================================================

/-- One contact entry of a notification payload. -/
structure NotificationContact where
  name : String
  phone : String
  email : Option String
  whatsapp : Option String
  is_primary : Bool
deriving DecidableEq, Repr

/-- The notification payload assembled by `processCrashEvent` and
`processPanicEvent` for the external notification sender (the formatted
alert text is elided). -/
structure NotificationPayload where
  eventId : Nat
  deviceId : String
  deviceName : String
  eventType : String
  severity : String
  injuryProbability : Option ℤ
  location_lat : ℚ
  location_lon : ℚ
  timestamp : Timestamp
  emergencyContacts : List NotificationContact
  triggeredBy : Option String
deriving DecidableEq, Repr

/-- Steps of the per-event pipeline that actually ran, recorded so that
theorems can state which stages a message reached. -/
inductive ProcessingStep where
  | validated
  | classified
  | persisted
deriving DecidableEq, Repr

/-- Projection of an emergency contact row into a payload entry. -/
def toNotificationContact (c : EmergencyContact) : NotificationContact :=
  { name := c.contact_name, phone := c.phone_number, email := c.email
    whatsapp := c.whatsapp_number, is_primary := c.is_primary }

/-- The notification-payload assembly of `processCrashEvent`: look up the
device and its emergency contacts and build the payload; null when the
device lookup fails. -/
def crashNotificationPayload (db2 : Database) (crashData : CrashEventCreateInput)
    (savedEvent : CrashEventRow) (severity : EventSeverity) (injuryProbability : ℤ) :
    Option NotificationPayload :=
  match getDevice db2 crashData.device_id with
  | none => none
  | some device =>
    some
      { eventId := savedEvent.id
        deviceId := crashData.device_id
        deviceName := device.device_name.getD crashData.device_id
        eventType := "crash"
        severity := severityToString severity
        injuryProbability := some injuryProbability
        location_lat := crashData.location_lat
        location_lon := crashData.location_lon
        timestamp := crashData.event_timestamp
        emergencyContacts := (getEmergencyContacts db2 device.user_id).map toNotificationContact
        triggeredBy := none }

/-- Embedding of `processCrashEvent(crashData)` proper: classify, save
through the crash transaction, then assemble the payload. -/
def processCrashEvent (faults : QueryFaults) (now : Timestamp)
    (crashData : CrashEventCreateInput) (db : Database) :
    Except String (CrashEventRow × Option NotificationPayload) × Database × List ProcessingStep :=
  match saveCrashEvent faults now
      { crashData with
        severity := some (severityToString
          (classifyCrashSeverity crashData.impact_force crashData.tilt_angle))
        injury_probability := some (calculateInjuryProbability crashData.impact_force
          crashData.tilt_angle crashData.pre_event_speed_avg) } db with
  | (.error e, db2) => (.error e, db2, [.classified])
  | (.ok savedEvent, db2) =>
    (.ok (savedEvent,
        crashNotificationPayload db2 crashData savedEvent
          (classifyCrashSeverity crashData.impact_force crashData.tilt_angle)
          (calculateInjuryProbability crashData.impact_force crashData.tilt_angle
            crashData.pre_event_speed_avg)),
      db2, [.classified, .persisted])

/-- The notification-payload assembly of `processPanicEvent`. -/
def panicNotificationPayload (db2 : Database) (panicData : PanicEventCreateInput)
    (savedEvent : PanicEventRow) : Option NotificationPayload :=
  match getDevice db2 panicData.device_id with
  | none => none
  | some device =>
    some
      { eventId := savedEvent.id
        deviceId := panicData.device_id
        deviceName := device.device_name.getD panicData.device_id
        eventType := "panic"
        severity := "high"
        injuryProbability := none
        location_lat := panicData.location_lat
        location_lon := panicData.location_lon
        timestamp := panicData.event_timestamp
        emergencyContacts := (getEmergencyContacts db2 device.user_id).map toNotificationContact
        triggeredBy := some panicData.triggered_by }

/-- Embedding of `processPanicEvent(panicData)` proper: save through the
panic transaction, then assemble the payload. -/
def processPanicEvent (faults : QueryFaults) (now : Timestamp)
    (panicData : PanicEventCreateInput) (db : Database) :
    Except String (PanicEventRow × Option NotificationPayload) × Database × List ProcessingStep :=
  match savePanicEvent faults now panicData db with
  | (.error e, db2) => (.error e, db2, [])
  | (.ok savedEvent, db2) =>
    (.ok (savedEvent, panicNotificationPayload db2 panicData savedEvent), db2, [.persisted])

-- ============================================================
-- MQTT MESSAGE HANDLERS (src/services/mqtt-handler.service.ts)
-- ============================================================

/-- Outcome of one MQTT handler invocation. Handlers catch every error
and return normally, so the outcome is total: the database afterwards,
the notification payload handed to the external sender (if any), and the
pipeline steps that ran. -/
structure HandlerResult where
  db : Database
  notificationPayload : Option NotificationPayload
  steps : List ProcessingStep
deriving DecidableEq, Repr

/-- Embedding of `handleTelemetry(message)`: validate, reject unknown
devices, set the device online with a fresh last-seen, and update the
battery when present. All failures are caught and logged. -/
def handleTelemetry (message : RawMessage) (now : Timestamp) (db : Database) : HandlerResult :=
  match telemetryMessageSchema message with
  | .error _ => { db := db, notificationPayload := none, steps := [] }
  | .ok validated =>
    match getDevice db validated.deviceId with
    | none => { db := db, notificationPayload := none, steps := [.validated] }
    | some _ =>
      let db1 := { db with
        devices := updateDeviceStatusRows db.devices validated.deviceId "online" now }
      let db2 :=
        match validated.battery_level with
        | some b => { db1 with
            devices := updateDeviceBatteryRows db1.devices validated.deviceId b }
        | none => db1
      { db := db2, notificationPayload := none, steps := [.validated] }

/-- The `crashData` record built by `handleCrashEvent` from a validated
message and the device row. -/
def buildCrashData (validated : CrashEventMessage) (device : Device) : CrashEventCreateInput :=
  { device_id := validated.deviceId
    user_id := device.user_id
    event_timestamp := validated.timestamp
    location_lat := validated.location.lat
    location_lon := validated.location.lon
    altitude := validated.location.altitude
    impact_force := some validated.impactForce
    impact_direction := some validated.impactDirection
    tilt_angle := some validated.tiltAngle
    pre_event_speed_avg := some validated.preEventData.speedAvg
    pre_event_heading := some validated.preEventData.heading
    pre_event_accel := some validated.preEventData.accel
    pre_event_gyro := some validated.preEventData.gyro
    post_event_accel := some validated.postEventData.accel
    post_event_gyro := some validated.postEventData.gyro
    post_event_position := some validated.postEventData.position
    severity := none
    injury_probability := none }

/-- Embedding of `handleCrashEvent(message)`: validate, reject unknown
devices, build the crash data and run `processCrashEvent`. Validation
errors and processing errors are caught, leaving the (rolled back)
database untouched. -/
def handleCrashEvent (faults : QueryFaults) (message : RawMessage) (now : Timestamp)
    (db : Database) : HandlerResult :=
  match crashEventMessageSchema message with
  | .error _ => { db := db, notificationPayload := none, steps := [] }
  | .ok validated =>
    match getDevice db validated.deviceId with
    | none => { db := db, notificationPayload := none, steps := [.validated] }
    | some device =>
      match processCrashEvent faults now (buildCrashData validated device) db with
      | (.error _, db2, steps) =>
        { db := db2, notificationPayload := none, steps := .validated :: steps }
      | (.ok (_, payload), db2, steps) =>
        { db := db2, notificationPayload := payload, steps := .validated :: steps }

/-- The `panicData` record built by `handlePanicEvent`: the in-body
trigger enum `manual` maps to `manual_button`, anything else to
`auto_detect`. -/
def buildPanicData (validated : PanicEventMessage) (device : Device) : PanicEventCreateInput :=
  { device_id := validated.deviceId
    user_id := device.user_id
    event_timestamp := validated.timestamp
    location_lat := validated.location_lat
    location_lon := validated.location_lon
    device_speed := validated.speed
    device_heading := validated.heading
    triggered_by := if validated.triggeredBy = "manual" then "manual_button" else "auto_detect" }

/-- Embedding of `handlePanicEvent(message)`: validate, reject unknown
devices, build the panic data and run `processPanicEvent`, catching every
error. -/
def handlePanicEvent (faults : QueryFaults) (message : RawMessage) (now : Timestamp)
    (db : Database) : HandlerResult :=
  match panicEventMessageSchema message with
  | .error _ => { db := db, notificationPayload := none, steps := [] }
  | .ok validated =>
    match getDevice db validated.deviceId with
    | none => { db := db, notificationPayload := none, steps := [.validated] }
    | some device =>
      match processPanicEvent faults now (buildPanicData validated device) db with
      | (.error _, db2, steps) =>
        { db := db2, notificationPayload := none, steps := .validated :: steps }
      | (.ok (_, payload), db2, steps) =>
        { db := db2, notificationPayload := payload, steps := .validated :: steps }

-- ============================================================
-- TRANSPORT CLIENT ENRICHMENT (src/mqtt/client.ts handleMessage)
-- ============================================================

/-- Embedding of the enrichment step of `MQTTClient.handleMessage`: the
spread `{...message, deviceId, timestamp: new Date(), topic}` replaces
the in-body device id with the id parsed from the topic and the in-body
timestamp with the receive time, then attaches the source topic. -/
def enrichMessage (message : RawMessage) (deviceId : String) (receiveTime : Timestamp)
    (topic : String) : RawMessage :=
  { message with
    deviceId := some deviceId
    timestamp := some receiveTime
    topic := some topic }

-- ============================================================
-- CRASH EVENT LISTING (routes/events + database.service getCrashEvents)
-- ============================================================

/-- The `CrashEventFilters` record handed to `getCrashEvents` (after the
route merged in the JWT user id and decoded the dates). -/
structure CrashEventFilters where
  device_id : Option String
  user_id : Option String
  severity : Option String
  start_date : Option Timestamp
  end_date : Option Timestamp
  is_reviewed : Option Bool
  event_limit : Option Int
  event_offset : Option Int
deriving DecidableEq, Repr

/-- JS truthiness of an optional string: absent and the empty string are
falsy. Used because `getCrashEvents` guards each string filter with
`if (filters.field)`. -/
def truthyString : Option String → Option String
  | none => none
  | some s => if s = "" then none else some s

/-- The conjunction of WHERE conditions `getCrashEvents` builds for one
row: each condition is added only when its filter is truthy, the
timestamp range is inclusive. -/
def crashEventMatches (filters : CrashEventFilters) (r : CrashEventRow) : Bool :=
  (match truthyString filters.device_id with
   | none => true
   | some d => r.device_id == d) &&
  (match truthyString filters.user_id with
   | none => true
   | some u => r.user_id == u) &&
  (match truthyString filters.severity with
   | none => true
   | some s => r.severity == s) &&
  (match filters.start_date with
   | none => true
   | some t => decide (t ≤ r.event_timestamp)) &&
  (match filters.end_date with
   | none => true
   | some t => decide (r.event_timestamp ≤ t)) &&
  (match filters.is_reviewed with
   | none => true
   | some b => r.is_reviewed == b)

/-- Newest-first ordering on crash rows: `ORDER BY event_timestamp
DESC`. -/
def newestFirst (a b : CrashEventRow) : Prop :=
  b.event_timestamp ≤ a.event_timestamp

instance : DecidableRel newestFirst := fun a b => by
  unfold newestFirst; infer_instance

instance : IsTotal CrashEventRow newestFirst :=
  ⟨fun a b => (le_total b.event_timestamp a.event_timestamp)⟩

instance : IsTrans CrashEventRow newestFirst :=
  ⟨fun _ _ _ hab hbc => le_trans hbc hab⟩

/-- Embedding of `getCrashEvents(filters)`: the rows matching the
conjunction of truthy filters, ordered newest-first, with `OFFSET
(filters.offset || 0)` and `LIMIT (filters.limit || 50)`. -/
def getCrashEvents (filters : CrashEventFilters) (db : Database) : List CrashEventRow :=
  let lim : Int :=
    match filters.event_limit with
    | none => 50
    | some l => if l = 0 then 50 else l
  let off : Int :=
    match filters.event_offset with
    | none => 0
    | some o => if o = 0 then 0 else o
  let matched := db.crashEvents.filter (crashEventMatches filters)
  let sorted := matched.insertionSort newestFirst
  (sorted.drop off.toNat).take lim.toNat

/-- The raw query string parameters of `GET /api/events/crashes` (datetime
strings already decoded to timestamps). -/
structure RawCrashQuery where
  device_id : Option String
  severity : Option String
  start_date : Option Timestamp
  end_date : Option Timestamp
  is_reviewed : Option String
  query_limit : Option Int
  query_offset : Option Int
deriving DecidableEq, Repr

/-- Validation of the optional `offset` query parameter and assembly of
the parsed filter record (the tail of `crashEventQuerySchema`). -/
def crashEventQueryTail (q : RawCrashQuery) (severity : Option String)
    (lim : Option Int) : Except String CrashEventFilters :=
  match q.query_offset with
  | some o =>
    if o < 0 then .error "offset: out of range"
    else
      .ok { device_id := q.device_id, user_id := none, severity := severity
            start_date := q.start_date, end_date := q.end_date
            is_reviewed := q.is_reviewed.map (fun v => v == "true")
            event_limit := lim, event_offset := some o }
  | none =>
    .ok { device_id := q.device_id, user_id := none, severity := severity
          start_date := q.start_date, end_date := q.end_date
          is_reviewed := q.is_reviewed.map (fun v => v == "true")
          event_limit := lim, event_offset := none }

/-- Validation of the optional `limit` query parameter: after numeric
conversion it must lie in [1, 100]. -/
def crashEventQueryLimit (q : RawCrashQuery) (severity : Option String) :
    Except String CrashEventFilters :=
  match q.query_limit with
  | some l =>
    if l < 1 ∨ 100 < l then .error "limit: out of range"
    else crashEventQueryTail q severity (some l)
  | none => crashEventQueryTail q severity none

/-- Embedding of `crashEventQuerySchema.parse`: the optional severity must
be a valid enum value, the optional limit must lie in [1, 100] after
numeric conversion, the optional offset must be non-negative, and
`is_reviewed` is the string comparison with `true`. -/
def crashEventQuerySchema (q : RawCrashQuery) : Except String CrashEventFilters :=
  match q.severity with
  | some s =>
    if s = "low" ∨ s = "medium" ∨ s = "high" ∨ s = "critical" then
      crashEventQueryLimit q (some s)
    else .error "severity: invalid enum value"
  | none => crashEventQueryLimit q none

/-- Embedding of the `GET /api/events/crashes` route body: validate the
query parameters, merge in the JWT user id, and run `getCrashEvents`; a
validation error propagates to the error middleware and no rows are
returned. -/
def listCrashEventsRoute (q : RawCrashQuery) (userId : Option String) (db : Database) :
    Except String (List CrashEventRow) :=
  match crashEventQuerySchema q with
  | .error e => .error e
  | .ok filters => .ok (getCrashEvents { filters with user_id := userId } db)

-- ============================================================
-- MQTT RECONNECT STATE MACHINE (src/mqtt/client.ts)
-- ============================================================

/-- The connection-management state of `MQTTClient`: whether a broker
session is up, whether a scheduled reconnect timeout is still pending,
and whether the `reconnectTimer` field holds a handle (a fired timeout
leaves its stale handle in the field). -/
structure MQTTClientState where
  connected : Bool
  timerPending : Bool
  reconnectTimer : Bool
deriving DecidableEq, Repr

/-- Embedding of `scheduleReconnect()`: a no-op while `reconnectTimer` is
non-null, otherwise store a fresh 5-second timeout handle. -/
def scheduleReconnect (s : MQTTClientState) : MQTTClientState :=
  if s.reconnectTimer then s
  else { s with reconnectTimer := true, timerPending := true }

/-- Embedding of `handleConnect()`: on the connect event, clear and null
the reconnect timer. -/
def handleConnect (s : MQTTClientState) : MQTTClientState :=
  { s with reconnectTimer := false, timerPending := false }

/-- Embedding of one `connect()` call: on success the session is up and
the connect event runs `handleConnect`; on failure the catch block calls
`scheduleReconnect`. -/
def connectAttempt (succeeds : Bool) (s : MQTTClientState) : MQTTClientState :=
  if succeeds then handleConnect { s with connected := true }
  else scheduleReconnect s

/-- Embedding of `handleClose()`: the connection is down and a reconnect
is scheduled. -/
def handleClose (s : MQTTClientState) : MQTTClientState :=
  scheduleReconnect { s with connected := false }

/-- Embedding of the scheduled timeout firing after 5 seconds: the
callback calls `connect()`; the `reconnectTimer` field is not cleared by
the callback. -/
def timerFire (succeeds : Bool) (s : MQTTClientState) : MQTTClientState :=
  connectAttempt succeeds { s with timerPending := false }

-- ============================================================
-- CONCRETE FIXTURES
-- ============================================================

/-- A raw 3-axis vector with all components present. -/
def sampleRawVector : RawVector := { x := some 1, y := some (-2), z := some (1/2) }

/-- A raw in-range position. -/
def sampleRawPosition : RawPosition := { lat := some 10, lon := some 20, altitude := none }

/-- A structurally complete, in-range crash message whose in-body device
id is `DEV-A`. -/
def sampleCrashMessage : RawMessage :=
  { RawMessage.empty with
    deviceId := some "DEV-A"
    timestamp := some 1000
    location := some sampleRawPosition
    impactForce := some 9
    impactDirection := some "front"
    tiltAngle := some 50
    preEventData := some
      { speedAvg := some 40, heading := some 90
        accel := some sampleRawVector, gyro := some sampleRawVector }
    postEventData := some
      { accel := some sampleRawVector, gyro := some sampleRawVector
        position := some sampleRawPosition } }

/-- A registry holding the single device `DEV-B`, owned by `user-1`. -/
def sampleDatabase : Database :=
  { devices := [{ device_id := "DEV-B", user_id := "user-1", device_name := some "Bike"
                  status := "online", last_seen := some 500, battery_level := some 80 }]
    crashEvents := []
    panicEvents := []
    contacts := [] }

/-- No injected query faults. -/
def noFaults : QueryFaults := { failInsert := false, failDeviceUpdate := false }

/-- The sample crash message readdressed to the unregistered device id
`GHOST-999`. -/
def ghostCrashMessage : RawMessage :=
  { sampleCrashMessage with deviceId := some "GHOST-999" }

/-- A crash message whose post-event acceleration vector is missing. -/
def badCrashMessage : RawMessage :=
  { sampleCrashMessage with
    deviceId := some "DEV-B"
    postEventData := some
      { accel := none, gyro := some sampleRawVector, position := some sampleRawPosition } }

/-- A telemetry message whose latitude is the out-of-range value 95. -/
def badTelemetryMessage : RawMessage :=
  { RawMessage.empty with
    deviceId := some "DEV-B"
    timestamp := some 1000
    location := some { lat := some 95, lon := some 20, altitude := none }
    speed := some 10
    heading := some 90 }

/-- The crash-listing query with no parameter supplied. -/
def emptyCrashQuery : RawCrashQuery :=
  { device_id := none, severity := none, start_date := none, end_date := none
    is_reviewed := none, query_limit := none, query_offset := none }

/-- A concrete crash-event create input for the device `DEV-B`. -/
def sampleCrashInput : CrashEventCreateInput :=
  { device_id := "DEV-B", user_id := "user-1", event_timestamp := 1500
    location_lat := 10, location_lon := 20, altitude := none
    impact_force := some 9, impact_direction := some "front", tilt_angle := some 50
    pre_event_speed_avg := some 40, pre_event_heading := some 90
    pre_event_accel := some { x := 1, y := -2, z := 1/2 }
    pre_event_gyro := some { x := 1, y := -2, z := 1/2 }
    post_event_accel := some { x := 1, y := -2, z := 1/2 }
    post_event_gyro := some { x := 1, y := -2, z := 1/2 }
    post_event_position := some { lat := 10, lon := 20, altitude := none }
    severity := some "critical", injury_probability := some 65 }

-- ============================================================
-- THEOREMS
-- ============================================================

-- Helper lemmas for the severity classifier.

theorem jsGtThreshold_eq_optGt (v : Option ℚ) (thr : ℚ) (h : 0 < thr) :
    jsGtThreshold v thr = optGtThreshold v thr := by
  cases v with
  | none => rfl
  | some x =>
    simp only [jsGtThreshold, optGtThreshold]
    by_cases hx : x = 0
    · subst hx
      simp [not_lt_of_ge (le_of_lt h)]
    · simp [hx]

theorem classifyCrashSeverity_eq_triggers (f t : Option ℚ) :
    classifyCrashSeverity f t =
      severityOfTriggers (jsGtThreshold f 8 || jsGtThreshold t 70)
        (jsGtThreshold f 5 || jsGtThreshold t 45)
        (jsGtThreshold f 3 || jsGtThreshold t 30) := rfl

theorem severityOfTriggers_rank_mono {c1 h1 m1 c2 h2 m2 : Bool}
    (hc : c1 = true → c2 = true) (hh : h1 = true → h2 = true)
    (hm : m1 = true → m2 = true) :
    severityRank (severityOfTriggers c1 h1 m1) ≤
      severityRank (severityOfTriggers c2 h2 m2) := by
  cases c1 <;> cases h1 <;> cases m1 <;> cases c2 <;> cases h2 <;> cases m2 <;>
    simp_all [severityOfTriggers, severityRank]

theorem jsGtThreshold_mono {x y thr : ℚ} (hthr : 0 < thr) (hxy : x ≤ y)
    (h : jsGtThreshold (some x) thr = true) : jsGtThreshold (some y) thr = true := by
  simp only [jsGtThreshold] at h ⊢
  by_cases hx : x = 0
  · simp [hx] at h
  · simp only [hx, if_false, decide_eq_true_eq] at h
    have hygt : thr < y := lt_of_lt_of_le h hxy
    have hy0 : y ≠ 0 := ne_of_gt (lt_trans hthr hygt)
    simp [hy0, hygt]

theorem jsOrLeft_mono {x y thr : ℚ} {b : Bool} (hthr : 0 < thr) (hxy : x ≤ y)
    (h : (jsGtThreshold (some x) thr || b) = true) :
    (jsGtThreshold (some y) thr || b) = true := by
  simp only [Bool.or_eq_true] at h ⊢
  rcases h with h1 | h1
  · exact .inl (jsGtThreshold_mono hthr hxy h1)
  · exact .inr h1

theorem jsOrRight_mono {x y thr : ℚ} {b : Bool} (hthr : 0 < thr) (hxy : x ≤ y)
    (h : (b || jsGtThreshold (some x) thr) = true) :
    (b || jsGtThreshold (some y) thr) = true := by
  simp only [Bool.or_eq_true] at h ⊢
  rcases h with h1 | h1
  · exact .inl h1
  · exact .inr (jsGtThreshold_mono hthr hxy h1)

/-- Claim C2: for all optional impact-force and tilt inputs the classifier
returns the first matching tier of the strict-threshold cascade
(CRITICAL above 8 or 70, else HIGH above 5 or 45, else MEDIUM above 3 or
30, else LOW), an absent input cannot trigger its own threshold and no
default is substituted; and an impact force of exactly 8 with no
qualifying tilt yields HIGH, not CRITICAL. -/
theorem classifyCrashSeverity_matches_spec_cascade :
    (∀ impactForce tiltAngle : Option ℚ,
        classifyCrashSeverity impactForce tiltAngle =
          specSeverityCascade impactForce tiltAngle) ∧
    classifyCrashSeverity (some 8) none = .high := by
  constructor
  · intro f t
    unfold classifyCrashSeverity specSeverityCascade
    rw [jsGtThreshold_eq_optGt f 8 (by norm_num), jsGtThreshold_eq_optGt t 70 (by norm_num),
      jsGtThreshold_eq_optGt f 5 (by norm_num), jsGtThreshold_eq_optGt t 45 (by norm_num),
      jsGtThreshold_eq_optGt f 3 (by norm_num), jsGtThreshold_eq_optGt t 30 (by norm_num)]
  · decide

/-- Claim C9: the classifier is monotone non-decreasing in each input
independently: raising the impact force with the tilt fixed never lowers
the severity tier, and symmetrically for the tilt angle. -/
theorem classifyCrashSeverity_monotone :
    (∀ (t : Option ℚ) (f1 f2 : ℚ), f1 ≤ f2 →
        severityRank (classifyCrashSeverity (some f1) t) ≤
          severityRank (classifyCrashSeverity (some f2) t)) ∧
    (∀ (f : Option ℚ) (t1 t2 : ℚ), t1 ≤ t2 →
        severityRank (classifyCrashSeverity f (some t1)) ≤
          severityRank (classifyCrashSeverity f (some t2))) := by
  constructor
  · intro t f1 f2 hle
    rw [classifyCrashSeverity_eq_triggers, classifyCrashSeverity_eq_triggers]
    exact severityOfTriggers_rank_mono
      (jsOrLeft_mono (by norm_num) hle) (jsOrLeft_mono (by norm_num) hle)
      (jsOrLeft_mono (by norm_num) hle)
  · intro f t1 t2 hle
    rw [classifyCrashSeverity_eq_triggers, classifyCrashSeverity_eq_triggers]
    exact severityOfTriggers_rank_mono
      (jsOrRight_mono (by norm_num) hle) (jsOrRight_mono (by norm_num) hle)
      (jsOrRight_mono (by norm_num) hle)

/-- Witness for C9: monotonicity applied at impact forces 1 and 2 and at
tilt angles 1 and 2. -/
theorem classifyCrashSeverity_monotone_witness :
    (1 : ℚ) ≤ 2 ∧
      severityRank (classifyCrashSeverity (some 1) none) ≤
        severityRank (classifyCrashSeverity (some 2) none) ∧
      severityRank (classifyCrashSeverity none (some 1)) ≤
        severityRank (classifyCrashSeverity none (some 2)) :=
  ⟨by norm_num, classifyCrashSeverity_monotone.1 none 1 2 (by norm_num),
    classifyCrashSeverity_monotone.2 none 1 2 (by norm_num)⟩

-- Helper lemmas for the injury-probability formula.

theorem truthyCappedTerm_eq (v : Option ℚ) (d c cap : ℚ) (hcap : 0 ≤ cap) :
    (match v with
     | none => (0 : ℚ)
     | some x => if x = 0 then 0 else min (x / d * c) cap) =
      specInjuryTerm v d c cap := by
  cases v with
  | none => rfl
  | some x =>
    simp only [specInjuryTerm]
    by_cases hx : x = 0
    · subst hx
      simp [min_eq_left hcap]
    · simp [hx]

theorem specInjuryTerm_bounds (v : Option ℚ) (d c cap : ℚ) (hd : 0 < d) (hc : 0 ≤ c)
    (hcap : 0 ≤ cap) (hv : ∀ x, v = some x → 0 ≤ x) :
    0 ≤ specInjuryTerm v d c cap ∧ specInjuryTerm v d c cap ≤ cap := by
  cases v with
  | none => exact ⟨le_refl 0, hcap⟩
  | some x =>
    have hx : 0 ≤ x := hv x rfl
    refine ⟨le_min ?_ hcap, min_le_right _ _⟩
    exact mul_nonneg (div_nonneg hx (le_of_lt hd)) hc

theorem jsRound_nonneg {q : ℚ} (h : 0 ≤ q) : 0 ≤ jsRound q := by
  unfold jsRound
  rw [Int.le_floor]
  push_cast
  linarith

theorem jsRound_eq {q : ℚ} {n : ℤ} (h1 : (n : ℚ) ≤ q + 1 / 2) (h2 : q + 1 / 2 < n + 1) :
    jsRound q = n := by
  unfold jsRound
  rw [Int.floor_eq_iff]
  constructor
  · exact_mod_cast h1
  · exact_mod_cast h2

/-- Claim C3 counterexample: at the negative input impactForce = -30 the
function returns -120, which does not lie in [0, 100], so the bound does
not hold for all inputs. -/
theorem calculateInjuryProbability_negative_cex :
    calculateInjuryProbability (some (-30)) none none = -120 ∧
      calculateInjuryProbability (some (-30)) none none < 0 := by
  have hround : jsRound (-120 : ℚ) = -120 := jsRound_eq (by norm_num) (by norm_num)
  have heval : calculateInjuryProbability (some (-30)) none none = -120 := by
    simp only [calculateInjuryProbability]
    norm_num [min_def, hround]
  exact ⟨heval, by rw [heval]; norm_num⟩

/-- Claim C3 as amended: the function equals the spec formula — the rounded sum
of the three independently capped weighted terms, hard-capped at 100,
with absent terms contributing 0 — for ALL inputs; its result lies in
[0, 100] for all NON-NEGATIVE inputs (the range the upstream validator
admits), including extreme ones; and impactForce 9.2, tiltAngle 20,
speed 60 yield 61. -/
theorem calculateInjuryProbability_amended :
    (∀ f t s : Option ℚ,
        calculateInjuryProbability f t s = specInjuryFormula f t s) ∧
    (∀ f t s : Option ℚ,
        (∀ x, f = some x → 0 ≤ x) → (∀ x, t = some x → 0 ≤ x) →
        (∀ x, s = some x → 0 ≤ x) →
        0 ≤ calculateInjuryProbability f t s ∧
          calculateInjuryProbability f t s ≤ 100) ∧
    calculateInjuryProbability (some (92 / 10)) (some 20) (some 60) = 61 := by
  have hformula : ∀ f t s : Option ℚ,
      calculateInjuryProbability f t s = specInjuryFormula f t s := by
    intro f t s
    unfold calculateInjuryProbability specInjuryFormula
    rw [truthyCappedTerm_eq f 10 40 40 (by norm_num),
      truthyCappedTerm_eq t 90 30 30 (by norm_num),
      truthyCappedTerm_eq s 100 30 30 (by norm_num)]
  have hround61 : jsRound (922 / 15 : ℚ) = 61 := jsRound_eq (by norm_num) (by norm_num)
  have hscenario : calculateInjuryProbability (some (92 / 10)) (some 20) (some 60) = 61 := by
    simp only [calculateInjuryProbability]
    norm_num [min_def]
    simp [hround61]
  refine ⟨hformula, ?_, hscenario⟩
  intro f t s hf ht hs
  rw [hformula]
  have h1 := specInjuryTerm_bounds f 10 40 40 (by norm_num) (by norm_num) (by norm_num) hf
  have h2 := specInjuryTerm_bounds t 90 30 30 (by norm_num) (by norm_num) (by norm_num) ht
  have h3 := specInjuryTerm_bounds s 100 30 30 (by norm_num) (by norm_num) (by norm_num) hs
  constructor
  · exact le_min (jsRound_nonneg (by linarith [h1.1, h2.1, h3.1])) (by norm_num)
  · exact min_le_right _ _

/-- Witness for C3 (amended): the bound applied at the non-negative
inputs of the CRITICAL scenario. -/
theorem calculateInjuryProbability_amended_witness :
    0 ≤ calculateInjuryProbability (some (92 / 10)) (some 20) (some 60) ∧
      calculateInjuryProbability (some (92 / 10)) (some 20) (some 60) ≤ 100 :=
  calculateInjuryProbability_amended.2.1 (some (92 / 10)) (some 20) (some 60)
    (by intro x hx; injection hx with h; rw [← h]; norm_num)
    (by intro x hx; injection hx with h; rw [← h]; norm_num)
    (by intro x hx; injection hx with h; rw [← h]; norm_num)

-- Helper lemma for the device-status update inside the crash transaction.

theorem updateDeviceStatusRows_spec (devices : List Device) (id status : String)
    (ls : Timestamp) :
    ∀ d ∈ updateDeviceStatusRows devices id status ls,
      d.device_id = id → d.status = status ∧ d.last_seen = some ls := by
  intro d hd hid
  simp only [updateDeviceStatusRows, List.mem_map] at hd
  obtain ⟨d0, _, heq⟩ := hd
  subst heq
  by_cases h : (d0.device_id == id) = true
  · simp [h]
  · rw [if_neg h] at hid
    exact absurd hid (by simpa using h)

/-- Claim C1: `saveCrashEvent` runs the crash-record insert and the device
status flip inside one `withTransaction` scope. When no statement throws,
the committed state holds the inserted crash row and the device row has
status `error` with the fresh last-seen; when the insert or the
device-status update throws, the transaction rolls back, the database
afterwards is exactly the original one — in particular no crash record
from this call exists — and the error is rethrown. -/
theorem saveCrashEvent_atomicity :
    ∀ (faults : QueryFaults) (now : Timestamp) (ev : CrashEventCreateInput) (db : Database),
      (faults.failInsert = false → faults.failDeviceUpdate = false →
        (saveCrashEvent faults now ev db).1 = .ok (mkCrashEventRow db ev) ∧
        (saveCrashEvent faults now ev db).2.crashEvents
          = db.crashEvents ++ [mkCrashEventRow db ev] ∧
        (saveCrashEvent faults now ev db).2.devices
          = updateDeviceStatusRows db.devices ev.device_id "error" now ∧
        ∀ d ∈ (saveCrashEvent faults now ev db).2.devices,
          d.device_id = ev.device_id → d.status = "error" ∧ d.last_seen = some now) ∧
      ((faults.failInsert = true ∨ faults.failDeviceUpdate = true) →
        (saveCrashEvent faults now ev db).2 = db ∧
        (saveCrashEvent faults now ev db).2.crashEvents = db.crashEvents ∧
        ∃ e, (saveCrashEvent faults now ev db).1 = .error e) := by
  intro faults now ev db
  obtain ⟨fi, fu⟩ := faults
  cases fi with
  | false =>
    cases fu with
    | false =>
      constructor
      · intro _ _
        exact ⟨rfl, rfl, rfl, updateDeviceStatusRows_spec _ _ _ _⟩
      · intro h
        rcases h with h | h <;> exact absurd h (by simp)
    | true =>
      constructor
      · intro _ h2
        exact absurd h2 (by simp)
      · intro _
        exact ⟨rfl, rfl, "device update failed", rfl⟩
  | true =>
    cases fu <;>
      exact ⟨fun h1 _ => absurd h1 (by simp),
        fun _ => ⟨rfl, rfl, "crash insert failed", rfl⟩⟩

/-- Witness for C1: the atomicity theorem applied to a concrete crash
input, once with no faults (commit) and once with a failing device-status
update (rollback). -/
theorem saveCrashEvent_atomicity_witness :
    (saveCrashEvent noFaults 2000 sampleCrashInput sampleDatabase).2.crashEvents
        = sampleDatabase.crashEvents ++ [mkCrashEventRow sampleDatabase sampleCrashInput] ∧
      (saveCrashEvent { failInsert := false, failDeviceUpdate := true } 2000
          sampleCrashInput sampleDatabase).2 = sampleDatabase :=
  ⟨((saveCrashEvent_atomicity noFaults 2000 sampleCrashInput sampleDatabase).1
      rfl rfl).2.1,
    ((saveCrashEvent_atomicity { failInsert := false, failDeviceUpdate := true } 2000
        sampleCrashInput sampleDatabase).2 (Or.inr rfl)).1⟩

-- Parser lemmas: a successful parse preserves the device id and the
-- timestamp of the raw message, and the documented malformed shapes fail.

theorem crashEventMessageSchema_fields {m : RawMessage} {v : CrashEventMessage}
    (h : crashEventMessageSchema m = .ok v) :
    m.deviceId = some v.deviceId ∧ m.timestamp = some v.timestamp := by
  unfold crashEventMessageSchema at h
  repeat' split at h
  all_goals try (injection h with h2; subst h2)
  all_goals simp_all

theorem telemetryMessageSchema_fields {m : RawMessage} {v : TelemetryMessage}
    (h : telemetryMessageSchema m = .ok v) :
    m.deviceId = some v.deviceId ∧ m.timestamp = some v.timestamp := by
  unfold telemetryMessageSchema at h
  repeat' split at h
  all_goals try (injection h with h2; subst h2)
  all_goals simp_all

theorem panicEventMessageSchema_fields {m : RawMessage} {v : PanicEventMessage}
    (h : panicEventMessageSchema m = .ok v) :
    m.deviceId = some v.deviceId ∧ m.timestamp = some v.timestamp := by
  unfold panicEventMessageSchema at h
  repeat' split at h
  all_goals try (injection h with h2; subst h2)
  all_goals simp_all

theorem crashEventMessageSchema_missing_post_accel {m : RawMessage}
    {pe : RawPostEventData} (h1 : m.postEventData = some pe) (h2 : pe.accel = none) :
    ∃ e, crashEventMessageSchema m = .error e := by
  unfold crashEventMessageSchema
  repeat' split
  all_goals first
  | exact ⟨_, rfl⟩
  | simp_all [parsePostEventData]

theorem telemetryMessageSchema_bad_latitude {m : RawMessage} {rl : RawPosition}
    (h1 : m.location = some rl) (h2 : rl.lat = some 95) :
    ∃ e, telemetryMessageSchema m = .error e := by
  have hout : ((95 : ℚ) < -90 ∨ (90 : ℚ) < 95) := by norm_num
  unfold telemetryMessageSchema
  repeat' split
  all_goals first
  | exact ⟨_, rfl⟩
  | simp_all [parsePosition]

/-- Claim C4: a message of any of the three classes whose device id is absent
from the device registry is rejected by the handler: the database is
unchanged afterwards (no event persisted, no device-state update, no
device auto-created) and no notification payload is produced. -/
theorem unknown_device_rejected :
    ∀ (faults : QueryFaults) (now : Timestamp) (m : RawMessage) (db : Database),
      (∀ d, m.deviceId = some d → getDevice db d = none) →
      (handleTelemetry m now db).db = db ∧
        (handleTelemetry m now db).notificationPayload = none ∧
        (handleCrashEvent faults m now db).db = db ∧
        (handleCrashEvent faults m now db).notificationPayload = none ∧
        (handlePanicEvent faults m now db).db = db ∧
        (handlePanicEvent faults m now db).notificationPayload = none := by
  intro faults now m db hun
  have htel : (handleTelemetry m now db).db = db ∧
      (handleTelemetry m now db).notificationPayload = none := by
    cases hparse : telemetryMessageSchema m with
    | error e => simp [handleTelemetry, hparse]
    | ok v =>
      have hdev : getDevice db v.deviceId = none :=
        hun v.deviceId (telemetryMessageSchema_fields hparse).1
      simp [handleTelemetry, hparse, hdev]
  have hcrash : (handleCrashEvent faults m now db).db = db ∧
      (handleCrashEvent faults m now db).notificationPayload = none := by
    cases hparse : crashEventMessageSchema m with
    | error e => simp [handleCrashEvent, hparse]
    | ok v =>
      have hdev : getDevice db v.deviceId = none :=
        hun v.deviceId (crashEventMessageSchema_fields hparse).1
      simp [handleCrashEvent, hparse, hdev]
  have hpanic : (handlePanicEvent faults m now db).db = db ∧
      (handlePanicEvent faults m now db).notificationPayload = none := by
    cases hparse : panicEventMessageSchema m with
    | error e => simp [handlePanicEvent, hparse]
    | ok v =>
      have hdev : getDevice db v.deviceId = none :=
        hun v.deviceId (panicEventMessageSchema_fields hparse).1
      simp [handlePanicEvent, hparse, hdev]
  exact ⟨htel.1, htel.2, hcrash.1, hcrash.2, hpanic.1, hpanic.2⟩

/-- Witness for C4: the spec scenario — a crash message for the
unregistered device id GHOST-999 leaves the database unchanged and
produces no notification payload. -/
theorem unknown_device_rejected_witness :
    getDevice sampleDatabase "GHOST-999" = none ∧
      (handleCrashEvent noFaults ghostCrashMessage 2000 sampleDatabase).db
        = sampleDatabase ∧
      (handleCrashEvent noFaults ghostCrashMessage 2000 sampleDatabase).notificationPayload
        = none := by
  have hun : ∀ d, ghostCrashMessage.deviceId = some d →
      getDevice sampleDatabase d = none := by
    intro d hd
    have hd2 : some "GHOST-999" = some d := hd
    injection hd2 with h
    subst h
    decide
  have hmain := unknown_device_rejected noFaults 2000 ghostCrashMessage sampleDatabase hun
  exact ⟨hun "GHOST-999" rfl, hmain.2.2.1, hmain.2.2.2.1⟩

/-- Claim C5: a crash message missing the post-event acceleration vector, and a
telemetry message with latitude 95, fail schema validation and are
discarded: the handler returns normally with the database unchanged, no
notification payload, and an empty step list (in particular the
classifier is never invoked and nothing is persisted). -/
theorem validation_failure_discarded :
    ∀ (faults : QueryFaults) (now : Timestamp) (db : Database),
      (∀ (m : RawMessage) (pe : RawPostEventData),
        m.postEventData = some pe → pe.accel = none →
        (∃ e, crashEventMessageSchema m = .error e) ∧
        handleCrashEvent faults m now db =
          { db := db, notificationPayload := none, steps := [] }) ∧
      (∀ (m : RawMessage) (rl : RawPosition),
        m.location = some rl → rl.lat = some 95 →
        (∃ e, telemetryMessageSchema m = .error e) ∧
        handleTelemetry m now db =
          { db := db, notificationPayload := none, steps := [] }) := by
  intro faults now db
  constructor
  · intro m pe h1 h2
    obtain ⟨e, he⟩ := crashEventMessageSchema_missing_post_accel h1 h2
    exact ⟨⟨e, he⟩, by simp [handleCrashEvent, he]⟩
  · intro m rl h1 h2
    obtain ⟨e, he⟩ := telemetryMessageSchema_bad_latitude h1 h2
    exact ⟨⟨e, he⟩, by simp [handleTelemetry, he]⟩

/-- Witness for C5: the discard behaviour at a concrete crash message
with a missing post-event acceleration vector and a concrete telemetry
message with latitude 95. -/
theorem validation_failure_discarded_witness :
    handleCrashEvent noFaults badCrashMessage 2000 sampleDatabase =
        { db := sampleDatabase, notificationPayload := none, steps := [] } ∧
      handleTelemetry badTelemetryMessage 2000 sampleDatabase =
        { db := sampleDatabase, notificationPayload := none, steps := [] } :=
  ⟨((validation_failure_discarded noFaults 2000 sampleDatabase).1 badCrashMessage
      { accel := none, gyro := some sampleRawVector, position := some sampleRawPosition }
      rfl rfl).2,
    ((validation_failure_discarded noFaults 2000 sampleDatabase).2 badTelemetryMessage
      { lat := some 95, lon := some 20, altitude := none } rfl rfl).2⟩

-- Helper lemmas about which rows a handler run can leave in the event
-- tables.

theorem all_mem_or {α : Type} [DecidableEq α] (l : List α) (p : α → Bool) :
    (l.all (fun a => decide (a ∈ l) || p a)) = true := by
  rw [List.all_eq_true]
  intro a ha
  simp [ha]

theorem handleCrashEvent_rows (faults : QueryFaults) (m : RawMessage) (now : Timestamp)
    (db : Database) (t : Timestamp) (ht : m.timestamp = some t) :
    ((handleCrashEvent faults m now db).db.crashEvents.all
      (fun row => decide (row ∈ db.crashEvents) || (row.event_timestamp == t))) = true := by
  have hbase := all_mem_or db.crashEvents (fun row => row.event_timestamp == t)
  cases hparse : crashEventMessageSchema m with
  | error e => simpa [handleCrashEvent, hparse] using hbase
  | ok v =>
    have hvt : v.timestamp = t := by
      have h2 := (crashEventMessageSchema_fields hparse).2
      rw [ht] at h2
      injection h2 with h3
      exact h3.symm
    cases hdev : getDevice db v.deviceId with
    | none => simpa [handleCrashEvent, hparse, hdev] using hbase
    | some device =>
      obtain ⟨fi, fu⟩ := faults
      cases fi with
      | true =>
        simpa [handleCrashEvent, hparse, hdev, processCrashEvent, saveCrashEvent,
          withTransaction] using hbase
      | false =>
        cases fu with
        | true =>
          simpa [handleCrashEvent, hparse, hdev, processCrashEvent, saveCrashEvent,
            withTransaction] using hbase
        | false =>
          simp only [handleCrashEvent, hparse, hdev, processCrashEvent, saveCrashEvent,
            withTransaction, Bool.false_eq_true, if_false, reduceIte]
          rw [List.all_eq_true]
          intro row hrow
          rw [List.mem_append] at hrow
          rcases hrow with hrow | hrow
          · simp [hrow]
          · rw [List.mem_singleton] at hrow
            subst hrow
            simp [mkCrashEventRow, buildCrashData, hvt]

theorem handlePanicEvent_rows (faults : QueryFaults) (m : RawMessage) (now : Timestamp)
    (db : Database) (t : Timestamp) (ht : m.timestamp = some t) :
    ((handlePanicEvent faults m now db).db.panicEvents.all
      (fun row => decide (row ∈ db.panicEvents) || (row.event_timestamp == t))) = true := by
  have hbase := all_mem_or db.panicEvents (fun row => row.event_timestamp == t)
  cases hparse : panicEventMessageSchema m with
  | error e => simpa [handlePanicEvent, hparse] using hbase
  | ok v =>
    have hvt : v.timestamp = t := by
      have h2 := (panicEventMessageSchema_fields hparse).2
      rw [ht] at h2
      injection h2 with h3
      exact h3.symm
    cases hdev : getDevice db v.deviceId with
    | none => simpa [handlePanicEvent, hparse, hdev] using hbase
    | some device =>
      obtain ⟨fi, fu⟩ := faults
      cases fi with
      | true =>
        simpa [handlePanicEvent, hparse, hdev, processPanicEvent, savePanicEvent,
          withTransaction] using hbase
      | false =>
        cases fu with
        | true =>
          simpa [handlePanicEvent, hparse, hdev, processPanicEvent, savePanicEvent,
            withTransaction] using hbase
        | false =>
          simp only [handlePanicEvent, hparse, hdev, processPanicEvent, savePanicEvent,
            withTransaction, Bool.false_eq_true, if_false, reduceIte]
          rw [List.all_eq_true]
          intro row hrow
          rw [List.mem_append] at hrow
          rcases hrow with hrow | hrow
          · simp [hrow]
          · rw [List.mem_singleton] at hrow
            subst hrow
            simp [buildPanicData, hvt]

/-- Claim C10: the transport enrichment overwrites the in-body fields with
server-side values — the device id becomes the id parsed from the topic
and the timestamp becomes the receive time — and therefore every crash or
panic row a handler run adds to the event tables carries the broker
receive time as its event timestamp, not whatever timestamp the device
published in its payload. -/
theorem enrichment_overwrites_and_persists_receive_time :
    ∀ (m : RawMessage) (d : String) (t : Timestamp) (topic : String)
      (faults : QueryFaults) (now : Timestamp) (db : Database),
      (enrichMessage m d t topic).deviceId = some d ∧
      (enrichMessage m d t topic).timestamp = some t ∧
      ((handleCrashEvent faults (enrichMessage m d t topic) now db).db.crashEvents.all
        (fun row => decide (row ∈ db.crashEvents) || (row.event_timestamp == t))) = true ∧
      ((handlePanicEvent faults (enrichMessage m d t topic) now db).db.panicEvents.all
        (fun row => decide (row ∈ db.panicEvents) || (row.event_timestamp == t))) = true := by
  intro m d t topic faults now db
  exact ⟨rfl, rfl, handleCrashEvent_rows faults _ now db t rfl,
    handlePanicEvent_rows faults _ now db t rfl⟩

/-- Claim C6 counterexample: a crash message whose in-body device id DEV-A
differs from the topic-derived id DEV-B is not treated as a validation
failure: after enrichment it validates, and the handler persists a crash
record under the topic-derived id, so the mismatch is processed rather
than rejected. -/
theorem device_id_mismatch_processed_cex :
    sampleCrashMessage.deviceId = some "DEV-A" ∧
      (enrichMessage sampleCrashMessage "DEV-B" 2000 "v1/DEV-B/events/crash").deviceId
        = some "DEV-B" ∧
      (handleCrashEvent noFaults
          (enrichMessage sampleCrashMessage "DEV-B" 2000 "v1/DEV-B/events/crash")
          2500 sampleDatabase).db.crashEvents.length = 1 ∧
      ProcessingStep.persisted ∈
        (handleCrashEvent noFaults
          (enrichMessage sampleCrashMessage "DEV-B" 2000 "v1/DEV-B/events/crash")
          2500 sampleDatabase).steps := by
  refine ⟨rfl, rfl, ?_, ?_⟩ <;> decide

/-- Claim C6 as amended: the in-body device id is never cross-checked against
the topic-derived id: enrichment unconditionally overwrites it with the
topic-derived id, so the dispatched message is identical whatever the
in-body id was, and processing continues under the topic-derived id
instead of rejecting the mismatch. -/
theorem inbody_device_id_overwritten_not_checked :
    ∀ (m : RawMessage) (x : Option String) (d : String) (t : Timestamp) (topic : String),
      enrichMessage { m with deviceId := x } d t topic = enrichMessage m d t topic ∧
      (enrichMessage m d t topic).deviceId = some d := by
  intro m x d t topic
  exact ⟨rfl, rfl⟩

/-- Claim C8 is violated by the code: on connection loss a reconnect is scheduled after the
fixed 5-second delay, but when that scheduled attempt fires and the
connect fails, the catch-block call to `scheduleReconnect` finds the
stale fired handle still stored in `reconnectTimer` and returns without
scheduling, so no further attempt is ever scheduled: the reconnect
process silently stops while the client remains disconnected. -/
theorem reconnect_stops_after_failed_attempt :
    (handleClose { connected := true, timerPending := false, reconnectTimer := false }
      ).timerPending = true ∧
      timerFire false (handleClose
          { connected := true, timerPending := false, reconnectTimer := false })
        = { connected := false, timerPending := false, reconnectTimer := true } ∧
      scheduleReconnect (timerFire false (handleClose
          { connected := true, timerPending := false, reconnectTimer := false }))
        = timerFire false (handleClose
          { connected := true, timerPending := false, reconnectTimer := false }) := by
  refine ⟨rfl, rfl, rfl⟩

-- Helper lemmas for the crash-event listing pipeline.

theorem crashEventQuerySchema_ok {q : RawCrashQuery} {f : CrashEventFilters}
    (h : crashEventQuerySchema q = .ok f) :
    f.device_id = q.device_id ∧ f.severity = q.severity ∧ f.start_date = q.start_date ∧
    f.end_date = q.end_date ∧
    f.is_reviewed = q.is_reviewed.map (fun v => v == "true") ∧
    (f.event_limit = none ∨ ∃ l, f.event_limit = some l ∧ 1 ≤ l ∧ l ≤ 100) ∧
    (∀ s, q.severity = some s → s ≠ "") := by
  unfold crashEventQuerySchema crashEventQueryLimit crashEventQueryTail at h
  repeat' split at h
  all_goals try (injection h with h2; subst h2)
  all_goals simp_all
  all_goals (rintro rfl; simp_all)

theorem getCrashEvents_mem {filters : CrashEventFilters} {db : Database}
    {r : CrashEventRow} (hr : r ∈ getCrashEvents filters db) :
    r ∈ db.crashEvents ∧ crashEventMatches filters r = true := by
  simp only [getCrashEvents] at hr
  exact List.mem_filter.mp
    ((List.perm_insertionSort _ _).mem_iff.mp
      (List.mem_of_mem_drop (List.mem_of_mem_take hr)))

theorem getCrashEvents_sorted (filters : CrashEventFilters) (db : Database) :
    List.Sorted newestFirst (getCrashEvents filters db) := by
  have hs := List.sorted_insertionSort newestFirst
    (db.crashEvents.filter (crashEventMatches filters))
  have hsub : List.Sublist (getCrashEvents filters db)
      ((db.crashEvents.filter (crashEventMatches filters)).insertionSort newestFirst) := by
    simp only [getCrashEvents]
    exact (List.take_sublist _ _).trans (List.drop_sublist _ _)
  exact hs.sublist hsub

theorem getCrashEvents_length {filters : CrashEventFilters} {db : Database}
    (hl : filters.event_limit = none ∨
      ∃ l, filters.event_limit = some l ∧ 1 ≤ l ∧ l ≤ 100) :
    (getCrashEvents filters db).length ≤ 100 := by
  simp only [getCrashEvents]
  rcases hl with hl | ⟨l, hl, h1, h100⟩
  · simp only [hl]
    exact le_trans (List.length_take_le _ _) (by norm_num)
  · simp only [hl]
    have hne : ¬(l = 0) := by omega
    simp only [if_neg hne]
    exact le_trans (List.length_take_le _ _) (Int.toNat_le.mpr (by exact_mod_cast h100))

theorem crashEventMatches_fields {filters : CrashEventFilters} {r : CrashEventRow}
    (h : crashEventMatches filters r = true) :
    (∀ d, filters.device_id = some d → d ≠ "" → r.device_id = d) ∧
    (∀ u, filters.user_id = some u → u ≠ "" → r.user_id = u) ∧
    (∀ s, filters.severity = some s → s ≠ "" → r.severity = s) ∧
    (∀ t1, filters.start_date = some t1 → t1 ≤ r.event_timestamp) ∧
    (∀ t2, filters.end_date = some t2 → r.event_timestamp ≤ t2) ∧
    (∀ b, filters.is_reviewed = some b → r.is_reviewed = b) := by
  simp only [crashEventMatches, Bool.and_eq_true] at h
  obtain ⟨⟨⟨⟨⟨h1, h2⟩, h3⟩, h4⟩, h5⟩, h6⟩ := h
  refine ⟨?_, ?_, ?_, ?_, ?_, ?_⟩
  · intro d hd hne
    rw [hd] at h1
    simpa [truthyString, hne] using h1
  · intro u hu hne
    rw [hu] at h2
    simpa [truthyString, hne] using h2
  · intro s hs hne
    rw [hs] at h3
    simpa [truthyString, hne] using h3
  · intro t1 ht1
    rw [ht1] at h4
    simpa using h4
  · intro t2 ht2
    rw [ht2] at h5
    simpa using h5
  · intro b hb
    rw [hb] at h6
    simpa using h6

/-- Claim C7: for every request to the crash-event listing endpoint that
returns rows, the rows all come from the crash table and match the
conjunction of the supplied filters (device id, owning user, severity,
inclusive timestamp range, review flag — string filters when non-empty,
mirroring the JS truthiness guard), the rows are ordered newest-first by
event timestamp, and never more than 100 rows are returned per page
regardless of the requested limit (the schema rejects limits above 100
and the default is 50). -/
theorem listCrashEvents_spec :
    ∀ (q : RawCrashQuery) (uid : Option String) (db : Database)
      (rows : List CrashEventRow),
      listCrashEventsRoute q uid db = .ok rows →
      rows.length ≤ 100 ∧
      List.Sorted newestFirst rows ∧
      (∀ r ∈ rows,
        r ∈ db.crashEvents ∧
        (∀ d, q.device_id = some d → d ≠ "" → r.device_id = d) ∧
        (∀ u, uid = some u → u ≠ "" → r.user_id = u) ∧
        (∀ s, q.severity = some s → r.severity = s) ∧
        (∀ t1, q.start_date = some t1 → t1 ≤ r.event_timestamp) ∧
        (∀ t2, q.end_date = some t2 → r.event_timestamp ≤ t2) ∧
        (∀ b, q.is_reviewed = some b → r.is_reviewed = (b == "true"))) := by
  intro q uid db rows h
  unfold listCrashEventsRoute at h
  cases hq : crashEventQuerySchema q with
  | error e =>
    rw [hq] at h
    exact absurd h (by simp)
  | ok f =>
    rw [hq] at h
    injection h with h2
    subst h2
    obtain ⟨hdev, hsev, hstart, hend, hrev, hlim, hsevne⟩ := crashEventQuerySchema_ok hq
    refine ⟨getCrashEvents_length hlim, getCrashEvents_sorted _ _, ?_⟩
    intro r hr
    obtain ⟨hmem, hmatch⟩ := getCrashEvents_mem hr
    obtain ⟨m1, m2, m3, m4, m5, m6⟩ := crashEventMatches_fields hmatch
    refine ⟨hmem, ?_, ?_, ?_, ?_, ?_, ?_⟩
    · intro d hd hne
      exact m1 d (hdev.trans hd) hne
    · intro u hu hne
      exact m2 u hu hne
    · intro s hs
      exact m3 s (hsev.trans hs) (hsevne s hs)
    · intro t1 ht1
      exact m4 t1 (hstart.trans ht1)
    · intro t2 ht2
      exact m5 t2 (hend.trans ht2)
    · intro b hb
      apply m6
      rw [show ({ f with user_id := uid } : CrashEventFilters).is_reviewed
            = f.is_reviewed from rfl, hrev, hb]
      rfl

/-- Witness for C7: the listing theorem applied to the empty query on the
sample database, which returns zero rows. -/
theorem listCrashEvents_spec_witness :
    listCrashEventsRoute emptyCrashQuery none sampleDatabase = .ok [] ∧
      ([] : List CrashEventRow).length ≤ 100 :=
  ⟨rfl, (listCrashEvents_spec emptyCrashQuery none sampleDatabase [] rfl).1⟩

end BlackBox
